import Mathlib

/-!
Shallow embedding of the Pololu APA102 Arduino LED strip driver
(src/APA102.h) and proofs of the spec's testable properties.

The driver's only observable effect is the sequence of GPIO line writes it
issues.  We model it at two levels:

* the byte level: each protocol routine (`startFrame`, `sendColor`,
  `endFrame`, `write`) is embedded as the list of byte values it passes to
  `transfer`, in order;
* the GPIO event level: `transferEvents` embeds the unrolled body of
  `APA102::transfer`, one `Event` per `digitalWrite` call, and
  `eventsOfBytes` lifts a byte sequence to its full event trace.

Machine integers (`uint8_t`, `uint16_t`) are embedded as `Nat`; range
hypotheses (`< 256`, `≤ 31`) appear explicitly in the theorems that
need them.
-/

namespace APA102

/-- Embedding of the rgb_color struct: three 8-bit channel values. -/
structure rgb_color where
  red : Nat
  green : Nat
  blue : Nat
deriving DecidableEq

/-- One GPIO action issued by `APA102::transfer`: a write of the data line
to a bit value, or a clock line transition. -/
inductive Event where
  | data : Nat → Event
  | clockHigh : Event
  | clockLow : Event
deriving DecidableEq

/-- Embedding of `APA102::transfer(uint8_t b)`: the unrolled sequence of
`digitalWrite` calls from the source, most significant bit first, each bit
written to the data line followed by a clock rising and falling edge. -/
def transferEvents (b : Nat) : List Event :=
  [Event.data (b >>> 7 &&& 1), Event.clockHigh, Event.clockLow,
   Event.data (b >>> 6 &&& 1), Event.clockHigh, Event.clockLow,
   Event.data (b >>> 5 &&& 1), Event.clockHigh, Event.clockLow,
   Event.data (b >>> 4 &&& 1), Event.clockHigh, Event.clockLow,
   Event.data (b >>> 3 &&& 1), Event.clockHigh, Event.clockLow,
   Event.data (b >>> 2 &&& 1), Event.clockHigh, Event.clockLow,
   Event.data (b >>> 1 &&& 1), Event.clockHigh, Event.clockLow,
   Event.data (b >>> 0 &&& 1), Event.clockHigh, Event.clockLow]

/-- Event trace of a sequence of `transfer` calls. -/
def eventsOfBytes (bytes : List Nat) : List Event :=
  List.flatten (bytes.map transferEvents)

/-- Clock edges are the clock line transitions. -/
def isClockEdge : Event → Bool
  | Event.clockHigh => true
  | Event.clockLow => true
  | Event.data _ => false

/-- Number of clock edges in an event trace. -/
def countEdges (l : List Event) : Nat :=
  (l.filter isClockEdge).length

/-- State of the two output lines driven by the driver. -/
structure LineState where
  dataLevel : Nat
  clockLevel : Bool
deriving DecidableEq

/-- Effect of one GPIO action on the line state. -/
def applyEvent (s : LineState) : Event → LineState
  | Event.data v => { s with dataLevel := v }
  | Event.clockHigh => { s with clockLevel := true }
  | Event.clockLow => { s with clockLevel := false }

/-- Line state after a sequence of GPIO actions. -/
def runEvents (s : LineState) (l : List Event) : LineState :=
  l.foldl applyEvent s

/-- First byte of each LED word: the expression `0b11100000 | brightness`
from `APA102::sendColor`. -/
def brightnessHeader (brightness : Nat) : Nat :=
  0b11100000 ||| brightness

/-- Byte trace of the four-argument `APA102::sendColor`: one `transfer`
of the brightness header, then blue, green, red. -/
def sendColor (red green blue brightness : Nat) : List Nat :=
  [brightnessHeader brightness, blue, green, red]

/-- Byte trace of the `rgb_color` overload of `APA102::sendColor`, which
delegates to the four-argument overload. -/
def sendColorStruct (color : rgb_color) (brightness : Nat) : List Nat :=
  sendColor color.red color.green color.blue brightness

/-- Byte trace of `APA102::startFrame`: after initializing the lines it
transfers four zero bytes. -/
def startFrame : List Nat :=
  [0, 0, 0, 0]

/-- Byte trace of `APA102::endFrame(uint16_t count)`: one `0xFF` byte,
then `5 + count / 16` zero bytes. -/
def endFrame (count : Nat) : List Nat :=
  0xFF :: List.replicate (5 + count / 16) 0

/-- The per-LED words of a `write` call, one 4-byte word per index
`i < count`, before concatenation. -/
def ledWords (colors : Nat → rgb_color) (count brightness : Nat) : List (List Nat) :=
  (List.range count).map fun i => sendColorStruct (colors i) brightness

/-- Byte trace of `APA102::write(rgb_color * colors, uint16_t count,
uint8_t brightness)`: `startFrame()`, then `sendColor(colors[i], brightness)`
for each `i < count` in order, then `endFrame(count)`.  The caller's array
is embedded as the function `colors` from indices to colors. -/
def write (colors : Nat → rgb_color) (count brightness : Nat) : List Nat :=
  startFrame ++ List.flatten (ledWords colors count brightness) ++ endFrame count

/-! Helper lemmas shared by the claim theorems. -/

theorem sendColorStruct_length (c : rgb_color) (brightness : Nat) :
    (sendColorStruct c brightness).length = 4 := rfl

theorem ledWords_flatten_length (colors : Nat → rgb_color) (count brightness : Nat) :
    (List.flatten (ledWords colors count brightness)).length = 4 * count := by
  induction count with
  | zero => rfl
  | succ n ih =>
    rw [ledWords, List.range_succ, List.map_append, List.flatten_append,
      List.length_append]
    rw [show ((List.range n).map fun i => sendColorStruct (colors i) brightness)
        = ledWords colors n brightness from rfl, ih]
    simp [sendColorStruct, sendColor]
    omega

theorem write_length (colors : Nat → rgb_color) (count brightness : Nat) :
    (write colors count brightness).length = 4 + 4 * count + 6 + count / 16 := by
  rw [write, List.length_append, List.length_append, ledWords_flatten_length]
  simp [startFrame, endFrame]
  omega

theorem write_take_four (colors : Nat → rgb_color) (count brightness : Nat) :
    (write colors count brightness).take 4 = [0, 0, 0, 0] := by
  rw [write, List.append_assoc]
  exact List.take_left' rfl

theorem write_drop_tail (colors : Nat → rgb_color) (count brightness : Nat) :
    (write colors count brightness).drop (4 + 4 * count) = endFrame count := by
  rw [write]
  refine List.drop_left' ?_
  rw [List.length_append, ledWords_flatten_length]
  rfl

theorem ledWords_flatten_drop_take (brightness : Nat) :
    ∀ (count : Nat) (colors : Nat → rgb_color) (i : Nat), i < count →
      ((List.flatten (ledWords colors count brightness)).drop (4 * i)).take 4
        = sendColorStruct (colors i) brightness := by
  intro count
  induction count with
  | zero => exact fun colors i h => absurd h (Nat.not_lt_zero i)
  | succ n ih =>
    intro colors i hi
    rw [ledWords, List.range_succ_eq_map, List.map_cons, List.flatten_cons,
      List.map_map]
    cases i with
    | zero =>
      rw [Nat.mul_zero, List.drop_zero]
      exact List.take_left' rfl
    | succ j =>
      rw [show 4 * (j + 1)
          = (sendColorStruct (colors 0) brightness).length + 4 * j from by
        rw [sendColorStruct_length]; omega]
      rw [List.drop_append]
      exact ih (fun k => colors (k + 1)) j (Nat.lt_of_succ_lt_succ hi)

theorem write_word_at (colors : Nat → rgb_color) (count brightness i : Nat)
    (hi : i < count) :
    ((write colors count brightness).drop (4 + 4 * i)).take 4
      = sendColorStruct (colors i) brightness := by
  rw [write, List.append_assoc]
  rw [show 4 + 4 * i = startFrame.length + 4 * i from rfl, List.drop_append]
  rw [List.drop_append_of_le_length
    (by rw [ledWords_flatten_length]; omega)]
  rw [List.take_append_of_le_length
    (by rw [List.length_drop, ledWords_flatten_length]; omega)]
  exact ledWords_flatten_drop_take brightness count colors i hi

theorem countEdges_transfer (b : Nat) : countEdges (transferEvents b) = 16 := rfl

theorem countEdges_eventsOfBytes (bytes : List Nat) :
    countEdges (eventsOfBytes bytes) = 16 * bytes.length := by
  induction bytes with
  | nil => rfl
  | cons b rest ih =>
    rw [eventsOfBytes, List.map_cons, List.flatten_cons]
    rw [countEdges, List.filter_append, List.length_append]
    rw [show (List.filter isClockEdge (transferEvents b)).length
        = countEdges (transferEvents b) from rfl, countEdges_transfer]
    rw [show (List.filter isClockEdge (List.flatten (rest.map transferEvents))).length
        = countEdges (eventsOfBytes rest) from rfl, ih]
    rw [List.length_cons]
    omega

/-! Claim theorems. -/

/-- Claim C1: for every `count ≥ 1` and brightness in `[0,31]`, `write`
emits exactly `4 + 4*count + 6 + count/16` bytes: the 4-byte all-zero
start frame, then `count` 4-byte LED words, then the end frame of
`6 + count/16` bytes. -/
theorem write_frame_layout (colors : Nat → rgb_color) (count brightness : Nat)
    (hcount : 1 ≤ count) (hb : brightness ≤ 31) :
    (write colors count brightness).length = 4 + 4 * count + 6 + count / 16 ∧
    (write colors count brightness).take 4 = [0, 0, 0, 0] ∧
    write colors count brightness
      = [0, 0, 0, 0] ++ List.flatten (ledWords colors count brightness) ++ endFrame count ∧
    (ledWords colors count brightness).length = count ∧
    (∀ w ∈ ledWords colors count brightness, w.length = 4) ∧
    (endFrame count).length = 6 + count / 16 := by
  refine ⟨write_length colors count brightness,
    write_take_four colors count brightness, rfl, by simp [ledWords], ?_, ?_⟩
  · intro w hw
    rw [ledWords] at hw
    obtain ⟨i, _, rfl⟩ := List.mem_map.mp hw
    exact sendColorStruct_length _ _
  · simp [endFrame]
    omega

/-- Claim C2: for every LED index `i < count`, the four bytes emitted by
`write` at byte offset `4 + 4*i` are `(0b111 <<< 5) ||| brightness`, then
the blue, green and red channels of `colors i`. -/
theorem write_led_word (colors : Nat → rgb_color) (count brightness i : Nat)
    (hi : i < count) :
    ((write colors count brightness).drop (4 + 4 * i)).take 4
      = [(0b111 <<< 5) ||| brightness, (colors i).blue, (colors i).green, (colors i).red] := by
  rw [write_word_at colors count brightness i hi]
  rfl

/-- Claim C3: `endFrame count` emits exactly one `0xFF` byte followed by
exactly `5 + count / 16` zero bytes and nothing else, and in the full
`write` stream the byte immediately after the last LED word is `0xFF`. -/
theorem endFrame_layout (colors : Nat → rgb_color) (count brightness : Nat) :
    endFrame count = 0xFF :: List.replicate (5 + count / 16) 0 ∧
    (write colors count brightness).drop (4 + 4 * count) = endFrame count ∧
    (write colors count brightness)[4 + 4 * count]? = some 0xFF := by
  refine ⟨rfl, write_drop_tail colors count brightness, ?_⟩
  have h := List.getElem?_drop (write colors count brightness) (4 + 4 * count) 0
  rw [write_drop_tail colors count brightness, Nat.add_zero] at h
  rw [← h, endFrame]
  exact List.getElem?_cons_zero

/-- Claim C4: for every 8-bit brightness value, including values outside
`[0,31]`, the brightness header byte equals the header of the brightness
masked to its low 5 bits: out-of-range brightness is masked, not
saturated. -/
theorem brightness_masked_not_saturated (brightness : Nat) (h : brightness < 256) :
    brightnessHeader brightness = brightnessHeader (brightness &&& 0b11111) ∧
    ∀ red green blue, sendColor red green blue brightness
      = sendColor red green blue (brightness &&& 0b11111) := by
  have key : ∀ x, x < 256 → brightnessHeader x = brightnessHeader (x &&& 0b11111) := by
    set_option maxRecDepth 8192 in decide
  exact ⟨key brightness h, fun r g bl => by rw [sendColor, sendColor, key brightness h]⟩

/-- Claim C5: `transfer b` emits the eight bits of `b` most significant
bit first, each bit as a data line write followed by a clock rising edge
and a clock falling edge; afterwards the clock line is low and the data
line holds bit 0 of `b`. -/
theorem transfer_bit_order_and_final_state (b : Nat) (s : LineState) :
    transferEvents b
      = List.flatten ((List.range 8).map fun i =>
          [Event.data (b >>> (7 - i) &&& 1), Event.clockHigh, Event.clockLow]) ∧
    (runEvents s (transferEvents b)).clockLevel = false ∧
    (runEvents s (transferEvents b)).dataLevel = b &&& 1 :=
  ⟨rfl, rfl, rfl⟩

/-- Claim C6: for every `count ≥ 1`, the bytes emitted by `endFrame count`
carry `16 * (6 + count / 16)` clock edges (two per bit), which is at
least `65 + (count - 1)` and in particular at least `count - 1`. -/
theorem endFrame_edges_sufficient (count : Nat) (h : 1 ≤ count) :
    countEdges (eventsOfBytes (endFrame count)) = 16 * (6 + count / 16) ∧
    65 + (count - 1) ≤ countEdges (eventsOfBytes (endFrame count)) ∧
    count - 1 ≤ countEdges (eventsOfBytes (endFrame count)) := by
  have hlen : (endFrame count).length = 6 + count / 16 := by
    rw [endFrame, List.length_cons, List.length_replicate]
    omega
  have he : countEdges (eventsOfBytes (endFrame count)) = 16 * (6 + count / 16) := by
    rw [countEdges_eventsOfBytes, hlen]
  exact ⟨he, by omega, by omega⟩

/-- Claim C7: the four-argument overload and the struct overload of
`sendColor` emit identical byte sequences. -/
theorem sendColor_overloads_agree (red green blue brightness : Nat) :
    sendColorStruct ⟨red, green, blue⟩ brightness = sendColor red green blue brightness := rfl

/-- Claim C9: `write` with `count = 0` emits exactly the ten bytes
`00 00 00 00 FF 00 00 00 00 00`, independently of the colors array. -/
theorem write_zero_count (colors : Nat → rgb_color) (brightness : Nat) :
    write colors 0 brightness = [0, 0, 0, 0, 0xFF, 0, 0, 0, 0, 0] ∧
    ∀ colors' : Nat → rgb_color, write colors 0 brightness = write colors' 0 brightness :=
  ⟨rfl, fun _ => rfl⟩

/-- Claim C8: writing a reordered color array reorders the emitted per-LED
words identically and changes nothing else: for a permutation `p` of
`[0, count)`, the word of the permuted write at index `i` is the word of
the original write at index `p i`, while the start frame, the end frame
and the total length are unchanged. -/
theorem write_reorders_words_only (colors : Nat → rgb_color) (count brightness : Nat)
    (p : Nat → Nat) (hp : ∀ i, i < count → p i < count)
    (hinj : ∀ i, i < count → ∀ j, j < count → p i = p j → i = j) :
    (∀ i, i < count →
      ((write (fun k => colors (p k)) count brightness).drop (4 + 4 * i)).take 4
        = ((write colors count brightness).drop (4 + 4 * (p i))).take 4) ∧
    (write (fun k => colors (p k)) count brightness).take 4
      = (write colors count brightness).take 4 ∧
    (write (fun k => colors (p k)) count brightness).drop (4 + 4 * count)
      = (write colors count brightness).drop (4 + 4 * count) ∧
    (write (fun k => colors (p k)) count brightness).length
      = (write colors count brightness).length := by
  refine ⟨?_, ?_, ?_, ?_⟩
  · intro i hi
    rw [write_word_at (fun k => colors (p k)) count brightness i hi,
      write_word_at colors count brightness (p i) (hp i hi)]
  · rw [write_take_four, write_take_four]
  · rw [write_drop_tail, write_drop_tail]
  · rw [write_length, write_length]

/-- Claim C10: `write` depends on the colors array only through the
entries at indices `0` to `count - 1`: two arrays that agree there
produce identical byte streams (in this embedding `write` is a pure
function of its arguments, so the caller's array is never modified). -/
theorem write_reads_only_first_count (colors colors' : Nat → rgb_color)
    (count brightness : Nat) (h : ∀ i, i < count → colors i = colors' i) :
    write colors count brightness = write colors' count brightness := by
  have hw : ledWords colors count brightness = ledWords colors' count brightness := by
    rw [ledWords, ledWords]
    apply List.map_congr_left
    intro a ha
    rw [h a (List.mem_range.mp ha)]
  rw [write, write, hw]

/-! Concrete inputs used by the witnesses below. -/

/-- A concrete colors array for witnesses. -/
def wcolors : Nat → rgb_color := fun i => ⟨i, i + 10, i + 20⟩

/-- A concrete colors array agreeing with `wcolors` on index 0 only. -/
def wcolors2 : Nat → rgb_color := fun i => if i < 1 then ⟨i, i + 10, i + 20⟩ else ⟨99, 99, 99⟩

/-- A concrete permutation of `[0, 2)`: the swap of 0 and 1. -/
def wperm : Nat → Nat := fun i => 1 - i

/-- Witness for claim C1 at `count = 2`, `brightness = 31`. -/
theorem write_frame_layout_witness :
    1 ≤ 2 ∧ (31 : Nat) ≤ 31 ∧
    ((write wcolors 2 31).length = 4 + 4 * 2 + 6 + 2 / 16 ∧
     (write wcolors 2 31).take 4 = [0, 0, 0, 0] ∧
     write wcolors 2 31
       = [0, 0, 0, 0] ++ List.flatten (ledWords wcolors 2 31) ++ endFrame 2 ∧
     (ledWords wcolors 2 31).length = 2 ∧
     (∀ w ∈ ledWords wcolors 2 31, w.length = 4) ∧
     (endFrame 2).length = 6 + 2 / 16) :=
  ⟨by decide, by decide, write_frame_layout wcolors 2 31 (by decide) (by decide)⟩

/-- Witness for claim C2 at `count = 2`, `i = 1`. -/
theorem write_led_word_witness :
    1 < 2 ∧
    ((write wcolors 2 31).drop (4 + 4 * 1)).take 4
      = [(0b111 <<< 5) ||| 31, (wcolors 1).blue, (wcolors 1).green, (wcolors 1).red] :=
  ⟨by decide, write_led_word wcolors 2 31 1 (by decide)⟩

/-- Witness for claim C4 at the out-of-range brightness 200. -/
theorem brightness_masked_not_saturated_witness :
    200 < 256 ∧
    (brightnessHeader 200 = brightnessHeader (200 &&& 0b11111) ∧
     ∀ red green blue, sendColor red green blue 200
       = sendColor red green blue (200 &&& 0b11111)) :=
  ⟨by decide, brightness_masked_not_saturated 200 (by decide)⟩

/-- Witness for claim C6 at `count = 1`. -/
theorem endFrame_edges_sufficient_witness :
    1 ≤ 1 ∧
    (countEdges (eventsOfBytes (endFrame 1)) = 16 * (6 + 1 / 16) ∧
     65 + (1 - 1) ≤ countEdges (eventsOfBytes (endFrame 1)) ∧
     1 - 1 ≤ countEdges (eventsOfBytes (endFrame 1))) :=
  ⟨by decide, endFrame_edges_sufficient 1 (by decide)⟩

/-- Witness for claim C8 at `count = 2` with the swap permutation. -/
theorem write_reorders_words_only_witness :
    (∀ i, i < 2 → wperm i < 2) ∧
    (∀ i, i < 2 → ∀ j, j < 2 → wperm i = wperm j → i = j) ∧
    ((∀ i, i < 2 →
        ((write (fun k => wcolors (wperm k)) 2 31).drop (4 + 4 * i)).take 4
          = ((write wcolors 2 31).drop (4 + 4 * (wperm i))).take 4) ∧
     (write (fun k => wcolors (wperm k)) 2 31).take 4 = (write wcolors 2 31).take 4 ∧
     (write (fun k => wcolors (wperm k)) 2 31).drop (4 + 4 * 2)
       = (write wcolors 2 31).drop (4 + 4 * 2) ∧
     (write (fun k => wcolors (wperm k)) 2 31).length = (write wcolors 2 31).length) :=
  ⟨by decide, by decide, write_reorders_words_only wcolors 2 31 wperm (by decide) (by decide)⟩

/-- Witness for claim C10 at `count = 1` with arrays differing from index
1 on. -/
theorem write_reads_only_first_count_witness :
    (∀ i, i < 1 → wcolors i = wcolors2 i) ∧
    write wcolors 1 31 = write wcolors2 1 31 :=
  ⟨by decide, write_reads_only_first_count wcolors wcolors2 1 31 (by decide)⟩

end APA102
